import Mathlib

/-!
Verification development for the m365-graph-cli repository.

The development shallowly embeds the token-lifecycle subsystem:
the credential-store schema and file IO of `m365-cli.js`
(findTokenCache, loadCache, saveCache, getAccessToken) and the
device-code authenticator of the auth script (initiateDeviceCodeFlow,
saveTokenCache, showUserInfo).  The filesystem is modelled as a map
from paths to optional file contents, where a present file either
parses to a store (valid) or does not (corrupt); time is wall-clock
milliseconds (seconds where the source divides by 1000); network
interactions are parameters (response streams / outcomes) and the
side effects of a run are reified as an explicit list of events.

The MSAL library calls made by getAccessToken (deserialization,
getAllAccounts, acquireTokenSilent and the cache-changed write-back)
are not part of the repository; they are modelled from the spec's
Token Manager algorithm and marked as such.
-/

set_option maxHeartbeats 1000000

namespace M365

/-- An entry of the Account map of the credential store, with the fields
written by saveTokenCache in the device-code authenticator; the name field
is only set by the post-hoc profile enrichment. -/
structure AccountEntry where
  home_account_id : String
  environment : String
  realm : String
  local_account_id : String
  username : String
  name : Option String := none
  authority_type : String
deriving DecidableEq, Repr

/-- An entry of the AccessToken map of the credential store.  The source
stores cached_at and expires_on as decimal strings of epoch seconds; they
are modelled as Nat and rendered back to strings by the serializer. -/
structure AccessTokenEntry where
  home_account_id : String
  environment : String
  credential_type : String
  client_id : String
  secret : String
  realm : String
  target : String
  cached_at : Nat
  expires_on : Nat
  extended_expires_on : Nat
  token_type : String
deriving DecidableEq, Repr

/-- An entry of the RefreshToken map of the credential store. -/
structure RefreshTokenEntry where
  home_account_id : String
  environment : String
  credential_type : String
  client_id : String
  secret : String
deriving DecidableEq, Repr

/-- An entry of the IdToken map of the credential store. -/
structure IdTokenEntry where
  home_account_id : String
  environment : String
  credential_type : String
  client_id : String
  secret : String
  realm : String
deriving DecidableEq, Repr

/-- The credential store document: the five top-level maps, each a list of
key/value pairs (JSON object fields in insertion order). -/
structure Cache where
  Account : List (String × AccountEntry)
  AccessToken : List (String × AccessTokenEntry)
  RefreshToken : List (String × RefreshTokenEntry)
  IdToken : List (String × IdTokenEntry)
  AppMetadata : List (String × String)
deriving DecidableEq, Repr

/-- Result of reading and JSON-parsing a present file: either it parses to a
credential store, or parsing fails. -/
inductive FileContent
  | valid (c : Cache)
  | corrupt
deriving DecidableEq, Repr

/-- A filesystem state: maps each path to its content, or none when the path
does not exist. -/
abbrev Fs := String → Option FileContent

/-- The candidate token cache paths of m365-cli.js, in priority order (the
first is the primary/local path). -/
def TOKEN_CACHE_PATHS : List String :=
  [".m365-token-cache.json",
   "/data/.npm/_npx/813b81b976932cb5/node_modules/@softeria/ms-365-mcp-server/.token-cache.json",
   "/data/.openclaw/tools/m365/.token-cache.json"]

/-- findTokenCache of m365-cli.js: scan the candidate paths in order and
return the first that exists; if none exists return the first path.  The
candidate list is a parameter (the source iterates the constant
TOKEN_CACHE_PATHS). -/
def findTokenCache (paths : List String) (fs : Fs) : Option String :=
  match paths.find? (fun p => (fs p).isSome) with
  | some p => some p
  | none => paths.head?

/-- The spec's resolver contract, stated in its own words: return the first
path that exists (the head of the existing candidates); if none exist,
return the first (primary/local) path.  Used only to compare against
findTokenCache. -/
def resolverSpec (paths : List String) (fs : Fs) : Option String :=
  match paths.filter (fun p => (fs p).isSome) with
  | [] => paths.head?
  | p :: _ => some p

/-- The resolved cache path used by the CLI (the source list is never empty,
so the default is never taken). -/
def resolveCachePath (fs : Fs) : String :=
  (findTokenCache TOKEN_CACHE_PATHS fs).getD ""

/-- loadCache of m365-cli.js: resolve the cache path; absent file gives
null; a read that fails to parse is caught and gives null. -/
def loadCache (fs : Fs) : Option Cache :=
  match fs (resolveCachePath fs) with
  | some (.valid c) => some c
  | _ => none

/-- A side effect of a run: an outgoing network request, a whole-document
write of a store to a path, or a process exit. -/
inductive Ev
  | network (url : String)
  | writeCache (path : String) (c : Cache)
  | exitProc (code : Nat)
deriving DecidableEq, Repr

/-- saveCache of m365-cli.js: write the whole document to the primary
(first) candidate path. -/
def saveCache (c : Cache) : Ev :=
  .writeCache TOKEN_CACHE_PATHS.headI c

/-- The scope string requested by the device-code authenticator. -/
def SCOPES : String := "Calendars.Read Mail.Read Mail.ReadWrite offline_access"

/-- The scopes requested by acquireTokenSilent in m365-cli.js. -/
def CLI_SCOPES : List String := ["Calendars.Read", "Mail.Read", "Mail.ReadWrite"]

/-- The token cache path of the device-code authenticator (the same local
file as the primary CLI candidate). -/
def TOKEN_CACHE_PATH : String := ".m365-token-cache.json"

/-- A token endpoint success payload (fields of the provider's JSON body
that the source reads). -/
structure TokenResult where
  access_token : String
  refresh_token : Option String
  id_token : Option String
  expires_in : Nat
deriving DecidableEq, Repr

/-- saveTokenCache of the device-code authenticator: build the MSAL-style
cache document from scratch.  now is epoch seconds.  The RefreshToken and
IdToken maps start empty and receive one entry each exactly when the
corresponding response field is present. -/
def saveTokenCache (tid cid : String) (tokens : TokenResult) (now : Nat) : Cache :=
  let expiresOn := now + tokens.expires_in
  let homeAccountId := tid ++ "." ++ tid
  let environment := "login.microsoftonline.com"
  let base : Cache :=
    { Account := [(homeAccountId ++ "-" ++ environment ++ "-" ++ tid,
        { home_account_id := homeAccountId
          environment := environment
          realm := tid
          local_account_id := tid
          username := "user@domain.com"
          authority_type := "MSSTS" })]
      AccessToken := [(homeAccountId ++ "-" ++ environment ++ "-accesstoken-" ++ cid
            ++ "-" ++ tid ++ "-" ++ SCOPES,
        { home_account_id := homeAccountId
          environment := environment
          credential_type := "AccessToken"
          client_id := cid
          secret := tokens.access_token
          realm := tid
          target := SCOPES
          cached_at := now
          expires_on := expiresOn
          extended_expires_on := expiresOn + 3600
          token_type := "Bearer" })]
      RefreshToken := []
      IdToken := []
      AppMetadata := [] }
  let withRt : Cache :=
    match tokens.refresh_token with
    | none => base
    | some rt =>
      { base with RefreshToken :=
          [(homeAccountId ++ "-" ++ environment ++ "-refreshtoken-" ++ cid ++ "----",
            { home_account_id := homeAccountId
              environment := environment
              credential_type := "RefreshToken"
              client_id := cid
              secret := rt })] }
  match tokens.id_token with
  | none => withRt
  | some it =>
    { withRt with IdToken :=
        [(homeAccountId ++ "-" ++ environment ++ "-idtoken-" ++ cid ++ "-" ++ tid ++ "---",
          { home_account_id := homeAccountId
            environment := environment
            credential_type := "IdToken"
            client_id := cid
            secret := it
            realm := tid })] }

/-- A fragment of JSON, enough to mirror what JSON.stringify emits for the
store (strings and objects). -/
inductive Jx
  | str (s : String)
  | obj (fields : List (String × Jx))

/-- Serialization of an Account entry (the optional name field is omitted
when absent, as JSON.stringify omits undefined). -/
def accountToJx (a : AccountEntry) : Jx :=
  .obj ([("home_account_id", .str a.home_account_id),
         ("environment", .str a.environment),
         ("realm", .str a.realm),
         ("local_account_id", .str a.local_account_id),
         ("username", .str a.username)]
    ++ (match a.name with
        | some n => [("name", Jx.str n)]
        | none => [])
    ++ [("authority_type", .str a.authority_type)])

/-- Serialization of an AccessToken entry (epoch-second fields are stored
as decimal strings, as in the source). -/
def accessTokenToJx (e : AccessTokenEntry) : Jx :=
  .obj [("home_account_id", .str e.home_account_id),
        ("environment", .str e.environment),
        ("credential_type", .str e.credential_type),
        ("client_id", .str e.client_id),
        ("secret", .str e.secret),
        ("realm", .str e.realm),
        ("target", .str e.target),
        ("cached_at", .str (toString e.cached_at)),
        ("expires_on", .str (toString e.expires_on)),
        ("extended_expires_on", .str (toString e.extended_expires_on)),
        ("token_type", .str e.token_type)]

/-- Serialization of a RefreshToken entry. -/
def refreshTokenToJx (e : RefreshTokenEntry) : Jx :=
  .obj [("home_account_id", .str e.home_account_id),
        ("environment", .str e.environment),
        ("credential_type", .str e.credential_type),
        ("client_id", .str e.client_id),
        ("secret", .str e.secret)]

/-- Serialization of an IdToken entry. -/
def idTokenToJx (e : IdTokenEntry) : Jx :=
  .obj [("home_account_id", .str e.home_account_id),
        ("environment", .str e.environment),
        ("credential_type", .str e.credential_type),
        ("client_id", .str e.client_id),
        ("secret", .str e.secret),
        ("realm", .str e.realm)]

/-- Serialization of a whole store document, mirroring JSON.stringify of the
in-memory cache object: the five top-level keys are always emitted. -/
def serializeCache (c : Cache) : Jx :=
  .obj [("Account", .obj (c.Account.map (fun kv => (kv.1, accountToJx kv.2)))),
        ("AccessToken", .obj (c.AccessToken.map (fun kv => (kv.1, accessTokenToJx kv.2)))),
        ("RefreshToken", .obj (c.RefreshToken.map (fun kv => (kv.1, refreshTokenToJx kv.2)))),
        ("IdToken", .obj (c.IdToken.map (fun kv => (kv.1, idTokenToJx kv.2)))),
        ("AppMetadata", .obj (c.AppMetadata.map (fun kv => (kv.1, Jx.str kv.2))))]

/-- Whether a serialized document has a given top-level key. -/
def hasTopKey (j : Jx) (k : String) : Bool :=
  match j with
  | .obj fields => fields.any (fun f => f.1 == k)
  | _ => false

/-- Well-formedness of a serialized store document per the spec: all five
top-level maps are present. -/
def wellFormedDoc (j : Jx) : Bool :=
  ["Account", "AccessToken", "RefreshToken", "IdToken", "AppMetadata"].all (hasTopKey j)

/-- Outcome of the refresh-token grant network request (a parameter of a
run, since the provider is external). -/
inductive RefreshOutcome
  | success (tokens : TokenResult)
  | failure (desc : String)
deriving DecidableEq, Repr

/-- Result of silent acquisition. -/
inductive SilentResult
  | cacheHit (secret : String)
  | refreshed (newCache : Cache) (secret : String)
  | refreshUnavailable
  | refreshFailed (desc : String)
deriving DecidableEq, Repr

/-- Splitting a character list on spaces, accumulating the current word in
reverse. -/
def wordsAux : List Char → List Char → List String
  | [], acc => if acc.isEmpty then [] else [String.mk acc.reverse]
  | c :: cs, acc =>
    if c = ' ' then
      if acc.isEmpty then wordsAux cs []
      else String.mk acc.reverse :: wordsAux cs []
    else wordsAux cs (c :: acc)

/-- The words of a space-separated scope string. -/
def scopeWords (target : String) : List String := wordsAux target.toList []

/-- Modelled from the spec: the Token Manager's access-token match (MSAL
lookup, not in the repository) — an entry matches when its client id is the
configured one, it belongs to the account, and its target covers the
required scope set. -/
def matchesToken (e : AccessTokenEntry) (acct : AccountEntry) (clientId : String)
    (scopes : List String) : Bool :=
  e.client_id == clientId && e.home_account_id == acct.home_account_id
    && scopes.all (fun s => (scopeWords e.target).contains s)

/-- Modelled from the spec: look up the most recent non-expired AccessToken
entry matching the account, required scope set and client id; a token is
valid iff now is strictly before expires_on. -/
def findValidToken (c : Cache) (acct : AccountEntry) (clientId : String)
    (scopes : List String) (now : Nat) : Option AccessTokenEntry :=
  ((c.AccessToken.map Prod.snd).filter
      (fun e => matchesToken e acct clientId scopes && decide (now < e.expires_on))).foldl
    (fun best e =>
      match best with
      | none => some e
      | some b => if b.cached_at < e.cached_at then some e else some b)
    none

/-- Modelled from the spec: locate a matching RefreshToken entry, keyed by
account, environment and client id. -/
def findRefreshToken (c : Cache) (acct : AccountEntry) (clientId : String) :
    Option RefreshTokenEntry :=
  (c.RefreshToken.map Prod.snd).find?
    (fun e => e.client_id == clientId && e.home_account_id == acct.home_account_id
      && e.environment == acct.environment)

/-- Modelled from the spec: on a successful refresh, persist the new access
token (and the replacement refresh token, if one was issued) into the
store, replacing the entries for this client id. -/
def updateCacheWithTokens (c : Cache) (acct : AccountEntry) (clientId : String)
    (toks : TokenResult) (now : Nat) : Cache :=
  let target := String.intercalate " " CLI_SCOPES
  let newAT : AccessTokenEntry :=
    { home_account_id := acct.home_account_id
      environment := acct.environment
      credential_type := "AccessToken"
      client_id := clientId
      secret := toks.access_token
      realm := acct.realm
      target := target
      cached_at := now
      expires_on := now + toks.expires_in
      extended_expires_on := now + toks.expires_in + 3600
      token_type := "Bearer" }
  let atKey := acct.home_account_id ++ "-" ++ acct.environment ++ "-accesstoken-"
      ++ clientId ++ "-" ++ acct.realm ++ "-" ++ target
  let c1 : Cache :=
    { c with AccessToken :=
        (c.AccessToken.filter (fun kv => kv.2.client_id != clientId)) ++ [(atKey, newAT)] }
  match toks.refresh_token with
  | none => c1
  | some rt =>
    let rtKey := acct.home_account_id ++ "-" ++ acct.environment ++ "-refreshtoken-"
        ++ clientId ++ "----"
    { c1 with RefreshToken :=
        (c1.RefreshToken.filter (fun kv => kv.2.client_id != clientId))
          ++ [(rtKey,
            { home_account_id := acct.home_account_id
              environment := acct.environment
              credential_type := "RefreshToken"
              client_id := clientId
              secret := rt })] }

/-- Modelled from the spec: the MSAL acquireTokenSilent call of
m365-cli.js (library code, not in the repository), per the Token Manager
algorithm — a valid cached token is returned as-is with no network call
and no cache change; otherwise a refresh-token grant is attempted when a
refresh token is present, and only a successful refresh changes the
cache. -/
def acquireTokenSilent (c : Cache) (acct : AccountEntry) (clientId : String)
    (scopes : List String) (now : Nat) (refresh : RefreshOutcome) : SilentResult :=
  match findValidToken c acct clientId scopes now with
  | some e => .cacheHit e.secret
  | none =>
    match findRefreshToken c acct clientId with
    | none => .refreshUnavailable
    | some _ =>
      match refresh with
      | .success toks => .refreshed (updateCacheWithTokens c acct clientId toks now) toks.access_token
      | .failure d => .refreshFailed d

/-- Errors of the token-resolution path of m365-cli.js. -/
inductive AuthError
  | noCredentials (msg : String)
  | deserializeFailed
  | noAccount (msg : String)
  | acquisitionFailed (msg : String)
deriving DecidableEq, Repr

/-- Whether a result is the NoCredentials failure. -/
def isNoCredentials : AuthError → Bool
  | .noCredentials _ => true
  | _ => false

deriving instance DecidableEq for Except

/-- The observable outcome of one getAccessToken run: its value or error,
the number of network calls issued, and the store writes performed. -/
structure RunResult where
  result : Except AuthError String
  networkCalls : Nat
  writes : List (String × Cache)
deriving DecidableEq, Repr

/-- getAccessToken of m365-cli.js: resolve the cache path; absent file
fails with the NoCredentials message; a present file is read raw and handed
to the MSAL cache (an unparseable file makes deserialization fail — there
is no catch on this path); zero accounts fail with the NoAccount message;
otherwise silent acquisition runs, and the afterCacheAccess hook writes the
whole serialized cache back to the resolved path exactly when the cache
changed (only a successful refresh changes it). -/
def getAccessToken (fs : Fs) (clientId : String) (now : Nat)
    (refresh : RefreshOutcome) : RunResult :=
  match fs (resolveCachePath fs) with
  | none =>
    { result := .error (.noCredentials "No token cache found. Run: node msal-auth.mjs")
      networkCalls := 0, writes := [] }
  | some .corrupt =>
    { result := .error .deserializeFailed, networkCalls := 0, writes := [] }
  | some (.valid c) =>
    match c.Account with
    | [] =>
      { result := .error (.noAccount "No account found. Run: node msal-auth.mjs")
        networkCalls := 0, writes := [] }
    | (_, acct) :: _ =>
      match acquireTokenSilent c acct clientId CLI_SCOPES now refresh with
      | .cacheHit s => { result := .ok s, networkCalls := 0, writes := [] }
      | .refreshed nc s =>
        { result := .ok s, networkCalls := 1, writes := [(resolveCachePath fs, nc)] }
      | .refreshUnavailable =>
        { result := .error (.acquisitionFailed "Token acquisition failed. Run: node msal-auth.mjs")
          networkCalls := 0, writes := [] }
      | .refreshFailed d =>
        { result := .error (.acquisitionFailed ("Token acquisition failed: " ++ d
            ++ ". Run: node msal-auth.mjs"))
          networkCalls := 1, writes := [] }

/-- A device-code endpoint success payload (fields the source reads).
interval is in seconds and may be absent. -/
structure DeviceCode where
  device_code : String
  user_code : String
  verification_uri : String
  expires_in : Nat
  interval : Option Nat
deriving DecidableEq, Repr

/-- A token endpoint polling response, as interpreted by the source: a
payload with an error field is dispatched on the error code, anything else
is a success. -/
inductive TokenResp
  | authorization_pending
  | slow_down
  | expired_token
  | otherError (desc : String)
  | success (tokens : TokenResult)
deriving DecidableEq, Repr

/-- pollInterval of the source in milliseconds:
deviceCode.interval * 1000 followed by a falsy-or default of 5000 (an
absent interval and interval 0 both give 5000). -/
def pollIntervalMs : Option Nat → Nat
  | some n => if n = 0 then 5000 else n * 1000
  | none => 5000

/-- The terminal outcome of the poll loop.  succeeded carries the wall
clock (ms) at which the successful response was fetched. -/
inductive PollOutcome
  | succeeded (tokens : TokenResult) (tSucc : Nat)
  | expiredTokenExit
  | failedExit (desc : String)
  | timedOut
deriving DecidableEq, Repr

/-- The process exit code after each poll outcome (the three failure paths
call process.exit(1); success continues and exits 0). -/
def outcomeExitCode : PollOutcome → Nat
  | .succeeded _ _ => 0
  | _ => 1

/-- The polling loop of initiateDeviceCodeFlow: while wall-clock is before
expiresAt, sleep the poll interval, issue a token request (its wall-clock
instant is recorded in the returned list), and dispatch on the response;
slow_down sleeps a further 5000 ms and keeps polling.  t is the wall-clock
in ms on entering the iteration, k the index of the next response. -/
def pollLoop (responses : Nat → TokenResp) (interval : Option Nat)
    (expiresAt t k : Nat) : PollOutcome × List Nat :=
  if h : t < expiresAt then
    let tf := t + pollIntervalMs interval
    match responses k with
    | .authorization_pending =>
      let r := pollLoop responses interval expiresAt tf (k + 1)
      (r.1, tf :: r.2)
    | .slow_down =>
      let r := pollLoop responses interval expiresAt (tf + 5000) (k + 1)
      (r.1, tf :: r.2)
    | .expired_token => (.expiredTokenExit, [tf])
    | .otherError d => (.failedExit d, [tf])
    | .success toks => (.succeeded toks tf, [tf])
  else (.timedOut, [])
termination_by expiresAt - t
decreasing_by
  all_goals
    have hp : 0 < pollIntervalMs interval := by
      cases interval with
      | none => decide
      | some n =>
        simp only [pollIntervalMs]
        split
        · decide
        · omega
    omega

/-- JS truthiness test for an optional environment string: absent or empty
is falsy. -/
def isFalsy : Option String → Bool
  | none => true
  | some s => s.isEmpty

/-- The form body of a device-code token poll request: client_secret is
attached only when the environment provides a truthy value. -/
def tokenRequestBody (cid : String) (secret : Option String) (deviceCode : String) :
    List (String × String) :=
  let base := [("client_id", cid),
               ("grant_type", "urn:ietf:params:oauth:grant-type:device_code"),
               ("device_code", deviceCode)]
  if isFalsy secret then base else base ++ [("client_secret", secret.getD "")]

/-- The device-code endpoint URL. -/
def deviceCodeUrl (tid : String) : String :=
  "https://login.microsoftonline.com/" ++ tid ++ "/oauth2/v2.0/devicecode"

/-- The token endpoint URL. -/
def tokenUrl (tid : String) : String :=
  "https://login.microsoftonline.com/" ++ tid ++ "/oauth2/v2.0/token"

/-- The profile endpoint URL used by showUserInfo. -/
def graphMeUrl : String := "https://graph.microsoft.com/v1.0/me"

/-- The profile fields showUserInfo uses (upnOrMail stands for
userPrincipalName with mail as fallback). -/
structure UserProfile where
  displayName : String
  upnOrMail : String
deriving DecidableEq, Repr

/-- Outcome of the best-effort profile lookup: a 2xx response with a user,
a non-2xx response, or a thrown network failure. -/
inductive ProfileOutcome
  | ok (user : UserProfile)
  | httpError
  | networkFailure
deriving DecidableEq, Repr

/-- showUserInfo of the device-code authenticator: fetch the profile; a
thrown failure is swallowed, a non-2xx response is skipped; on success the
first account of the just-written store is enriched with the username and
display name and the store is rewritten whole. -/
def showUserInfo (c : Cache) (profile : ProfileOutcome) : List Ev :=
  match profile with
  | .networkFailure => [.network graphMeUrl]
  | .httpError => [.network graphMeUrl]
  | .ok user =>
    match c.Account with
    | [] => [.network graphMeUrl]
    | (k, acct) :: rest =>
      let acct2 := { acct with username := user.upnOrMail, name := some user.displayName }
      [.network graphMeUrl,
       .writeCache TOKEN_CACHE_PATH { c with Account := (k, acct2) :: rest }]

/-- The observable outcome of one run of the authenticator script. -/
structure FlowResult where
  events : List Ev
  exitCode : Nat
deriving DecidableEq, Repr

/-- initiateDeviceCodeFlow of the authenticator script: the environment
check exits 1 when tenant id or client id is falsy (the client secret is
not checked); then the device-code request is issued (a non-2xx response
exits 1); then the poll loop runs from the issuance instant now0 with
deadline now0 + expires_in * 1000; on success the store built by
saveTokenCache is written whole (epoch seconds of the success instant),
then showUserInfo runs best-effort, and the process exits 0; every other
poll outcome exits 1. -/
def initiateDeviceCodeFlow (tenant clientId secret : Option String)
    (dcResp : Option DeviceCode) (responses : Nat → TokenResp)
    (profile : ProfileOutcome) (now0 : Nat) : FlowResult :=
  if isFalsy tenant || isFalsy clientId then
    { events := [.exitProc 1], exitCode := 1 }
  else
    let tid := tenant.getD ""
    let cid := clientId.getD ""
    match dcResp with
    | none => { events := [.network (deviceCodeUrl tid), .exitProc 1], exitCode := 1 }
    | some dc =>
      match (pollLoop responses dc.interval (now0 + dc.expires_in * 1000) now0 0).1 with
      | .succeeded toks tSucc =>
        { events := .network (deviceCodeUrl tid)
            :: (pollLoop responses dc.interval (now0 + dc.expires_in * 1000) now0 0).2.map
                 (fun _ => Ev.network (tokenUrl tid))
            ++ .writeCache TOKEN_CACHE_PATH (saveTokenCache tid cid toks (tSucc / 1000))
              :: showUserInfo (saveTokenCache tid cid toks (tSucc / 1000)) profile
          exitCode := 0 }
      | .expiredTokenExit =>
        { events := .network (deviceCodeUrl tid)
            :: (pollLoop responses dc.interval (now0 + dc.expires_in * 1000) now0 0).2.map
                 (fun _ => Ev.network (tokenUrl tid)) ++ [.exitProc 1]
          exitCode := 1 }
      | .failedExit _ =>
        { events := .network (deviceCodeUrl tid)
            :: (pollLoop responses dc.interval (now0 + dc.expires_in * 1000) now0 0).2.map
                 (fun _ => Ev.network (tokenUrl tid)) ++ [.exitProc 1]
          exitCode := 1 }
      | .timedOut =>
        { events := .network (deviceCodeUrl tid)
            :: (pollLoop responses dc.interval (now0 + dc.expires_in * 1000) now0 0).2.map
                 (fun _ => Ev.network (tokenUrl tid)) ++ [.exitProc 1]
          exitCode := 1 }

/-- Whether a run result is the NoCredentials failure. -/
def resultIsNoCredentials (r : RunResult) : Bool :=
  match r.result with
  | .error err => isNoCredentials err
  | .ok _ => false

/-- A concrete provider token payload that includes a refresh token. -/
def demoTokens : TokenResult :=
  { access_token := "AT", refresh_token := some "RT", id_token := none, expires_in := 3600 }

/-- A concrete provider token payload with no refresh token. -/
def demoTokensNoRt : TokenResult :=
  { access_token := "AT2", refresh_token := none, id_token := none, expires_in := 3600 }

/-- The store the authenticator writes for demoTokens at epoch second 0. -/
def demoCache : Cache := saveTokenCache "tid" "cid" demoTokens 0

/-- The account record of demoCache. -/
def demoAccount : AccountEntry :=
  { home_account_id := "tid.tid"
    environment := "login.microsoftonline.com"
    realm := "tid"
    local_account_id := "tid"
    username := "user@domain.com"
    authority_type := "MSSTS" }

/-- The account key of demoCache. -/
def demoAccountKey : String := "tid.tid-login.microsoftonline.com-tid"

/-- The access-token record of demoCache. -/
def demoATEntry : AccessTokenEntry :=
  { home_account_id := "tid.tid"
    environment := "login.microsoftonline.com"
    credential_type := "AccessToken"
    client_id := "cid"
    secret := "AT"
    realm := "tid"
    target := SCOPES
    cached_at := 0
    expires_on := 3600
    extended_expires_on := 7200
    token_type := "Bearer" }

/-- A filesystem with the demo store at the primary/local path only. -/
def demoFs : Fs :=
  fun p => if p = TOKEN_CACHE_PATH then some (.valid demoCache) else none

/-- The second candidate path (the external mcporter cache). -/
def mcporterPath : String :=
  "/data/.npm/_npx/813b81b976932cb5/node_modules/@softeria/ms-365-mcp-server/.token-cache.json"

/-- A filesystem where only the second (non-primary) candidate exists and
holds the demo store. -/
def fsAlt : Fs :=
  fun p => if p = mcporterPath then some (.valid demoCache) else none

/-- A filesystem whose primary cache file exists but does not parse. -/
def fsCorrupt : Fs :=
  fun p => if p = TOKEN_CACHE_PATH then some .corrupt else none

/-- A filesystem with no cache file at any path. -/
def emptyFs : Fs := fun _ => none

/-- A concrete device-code payload: a 900 second window and a 5 second
interval. -/
def demoDC : DeviceCode :=
  { device_code := "dc", user_code := "uc", verification_uri := "uri"
    expires_in := 900, interval := some 5 }

/-- A response stream answering slow_down to the first poll and success
afterwards. -/
def demoSlowResponses : Nat → TokenResp :=
  fun j => if j = 0 then .slow_down else .success demoTokens

theorem pollIntervalMs_pos (i : Option Nat) : 0 < pollIntervalMs i := by
  cases i with
  | none => decide
  | some n =>
    simp only [pollIntervalMs]
    split
    · decide
    · omega

theorem pollLoop_not_lt (responses : Nat → TokenResp) (interval : Option Nat)
    (expiresAt t k : Nat) (h : ¬ t < expiresAt) :
    pollLoop responses interval expiresAt t k = (.timedOut, []) := by
  rw [pollLoop]
  simp [h]

theorem pollLoop_pending_eq (responses : Nat → TokenResp) (interval : Option Nat)
    (expiresAt t k : Nat) (h : t < expiresAt)
    (hr : responses k = .authorization_pending) :
    pollLoop responses interval expiresAt t k =
      ((pollLoop responses interval expiresAt (t + pollIntervalMs interval) (k + 1)).1,
       (t + pollIntervalMs interval)
         :: (pollLoop responses interval expiresAt (t + pollIntervalMs interval) (k + 1)).2) := by
  rw [pollLoop]
  simp [h, hr]

theorem pollLoop_slowDown_eq (responses : Nat → TokenResp) (interval : Option Nat)
    (expiresAt t k : Nat) (h : t < expiresAt) (hr : responses k = .slow_down) :
    pollLoop responses interval expiresAt t k =
      ((pollLoop responses interval expiresAt (t + pollIntervalMs interval + 5000) (k + 1)).1,
       (t + pollIntervalMs interval)
         :: (pollLoop responses interval expiresAt (t + pollIntervalMs interval + 5000) (k + 1)).2) := by
  rw [pollLoop]
  simp [h, hr]

theorem pollLoop_expired_eq (responses : Nat → TokenResp) (interval : Option Nat)
    (expiresAt t k : Nat) (h : t < expiresAt) (hr : responses k = .expired_token) :
    pollLoop responses interval expiresAt t k =
      (.expiredTokenExit, [t + pollIntervalMs interval]) := by
  rw [pollLoop]
  simp [h, hr]

theorem pollLoop_otherError_eq (responses : Nat → TokenResp) (interval : Option Nat)
    (expiresAt t k : Nat) (d : String) (h : t < expiresAt)
    (hr : responses k = .otherError d) :
    pollLoop responses interval expiresAt t k =
      (.failedExit d, [t + pollIntervalMs interval]) := by
  rw [pollLoop]
  simp [h, hr]

theorem pollLoop_success_eq (responses : Nat → TokenResp) (interval : Option Nat)
    (expiresAt t k : Nat) (toks : TokenResult) (h : t < expiresAt)
    (hr : responses k = .success toks) :
    pollLoop responses interval expiresAt t k =
      (.succeeded toks (t + pollIntervalMs interval), [t + pollIntervalMs interval]) := by
  rw [pollLoop]
  simp [h, hr]

theorem pollLoop_times_lb (responses : Nat → TokenResp) (interval : Option Nat)
    (expiresAt : Nat) :
    ∀ t k, ∀ x ∈ (pollLoop responses interval expiresAt t k).2,
      t + pollIntervalMs interval ≤ x := by
  intro t k
  induction t, k using pollLoop.induct responses interval expiresAt with
  | case1 t k h tf hr ih =>
    intro x hx
    rw [pollLoop_pending_eq responses interval expiresAt t k h hr] at hx
    rw [List.mem_cons] at hx
    rcases hx with hx | hx
    · omega
    · have := ih x hx
      omega
  | case2 t k h tf hr ih =>
    intro x hx
    rw [pollLoop_slowDown_eq responses interval expiresAt t k h hr] at hx
    rw [List.mem_cons] at hx
    rcases hx with hx | hx
    · omega
    · have := ih x hx
      omega
  | case3 t k h hr =>
    intro x hx
    rw [pollLoop_expired_eq responses interval expiresAt t k h hr] at hx
    simp at hx
    omega
  | case4 t k h d hr =>
    intro x hx
    rw [pollLoop_otherError_eq responses interval expiresAt t k d h hr] at hx
    simp at hx
    omega
  | case5 t k h toks hr =>
    intro x hx
    rw [pollLoop_success_eq responses interval expiresAt t k toks h hr] at hx
    simp at hx
    omega
  | case6 t k h =>
    intro x hx
    rw [pollLoop_not_lt responses interval expiresAt t k h] at hx
    simp at hx

theorem pollLoop_times_ub (responses : Nat → TokenResp) (interval : Option Nat)
    (expiresAt : Nat) :
    ∀ t k, ∀ x ∈ (pollLoop responses interval expiresAt t k).2,
      x < expiresAt + pollIntervalMs interval := by
  intro t k
  induction t, k using pollLoop.induct responses interval expiresAt with
  | case1 t k h tf hr ih =>
    intro x hx
    rw [pollLoop_pending_eq responses interval expiresAt t k h hr] at hx
    rw [List.mem_cons] at hx
    rcases hx with hx | hx
    · omega
    · exact ih x hx
  | case2 t k h tf hr ih =>
    intro x hx
    rw [pollLoop_slowDown_eq responses interval expiresAt t k h hr] at hx
    rw [List.mem_cons] at hx
    rcases hx with hx | hx
    · omega
    · exact ih x hx
  | case3 t k h hr =>
    intro x hx
    rw [pollLoop_expired_eq responses interval expiresAt t k h hr] at hx
    simp at hx
    omega
  | case4 t k h d hr =>
    intro x hx
    rw [pollLoop_otherError_eq responses interval expiresAt t k d h hr] at hx
    simp at hx
    omega
  | case5 t k h toks hr =>
    intro x hx
    rw [pollLoop_success_eq responses interval expiresAt t k toks h hr] at hx
    simp at hx
    omega
  | case6 t k h =>
    intro x hx
    rw [pollLoop_not_lt responses interval expiresAt t k h] at hx
    simp at hx

theorem pollLoop_pending_timedOut (responses : Nat → TokenResp) (interval : Option Nat)
    (expiresAt : Nat)
    (hresp : ∀ j, responses j = .authorization_pending ∨ responses j = .slow_down) :
    ∀ t k, (pollLoop responses interval expiresAt t k).1 = .timedOut := by
  intro t k
  induction t, k using pollLoop.induct responses interval expiresAt with
  | case1 t k h tf hr ih =>
    rw [pollLoop_pending_eq responses interval expiresAt t k h hr]
    exact ih
  | case2 t k h tf hr ih =>
    rw [pollLoop_slowDown_eq responses interval expiresAt t k h hr]
    exact ih
  | case3 t k h hr =>
    rcases hresp k with hp | hp <;> rw [hr] at hp <;> cases hp
  | case4 t k h d hr =>
    rcases hresp k with hp | hp <;> rw [hr] at hp <;> cases hp
  | case5 t k h toks hr =>
    rcases hresp k with hp | hp <;> rw [hr] at hp <;> cases hp
  | case6 t k h =>
    rw [pollLoop_not_lt responses interval expiresAt t k h]

theorem find_eq_head_of_filter {α : Type} (pred : α → Bool) :
    ∀ l : List α, l.find? pred = (l.filter pred).head? := by
  intro l
  induction l with
  | nil => rfl
  | cons a l ih =>
    by_cases h : pred a = true
    · rw [List.find?_cons_of_pos l h, List.filter_cons_of_pos h, List.head?_cons]
    · rw [List.find?_cons_of_neg l h, List.filter_cons_of_neg h]
      exact ih

/-- C1: for every ordered list of candidate cache paths and every filesystem
state, findTokenCache returns the first path in the list that exists; if no
candidate exists, it returns the first (primary/local) path.  Stated as
equivalence with the resolver contract written from the spec's words. -/
theorem findTokenCache_contract :
    ∀ (paths : List String) (fs : Fs), findTokenCache paths fs = resolverSpec paths fs := by
  intro paths fs
  unfold findTokenCache resolverSpec
  rw [find_eq_head_of_filter]
  cases paths.filter (fun p => (fs p).isSome) <;> simp

theorem acquireTokenSilent_refreshed_inv (c : Cache) (acct : AccountEntry) (cid : String)
    (scopes : List String) (n : Nat) (r : RefreshOutcome) (nc : Cache) (s : String)
    (h : acquireTokenSilent c acct cid scopes n r = .refreshed nc s) :
    ∃ toks, r = .success toks ∧ s = toks.access_token := by
  unfold acquireTokenSilent at h
  cases hv : findValidToken c acct cid scopes n with
  | some e =>
    rw [hv] at h
    simp at h
  | none =>
    rw [hv] at h
    cases hrf : findRefreshToken c acct cid with
    | none =>
      rw [hrf] at h
      simp at h
    | some rt =>
      rw [hrf] at h
      cases r with
      | success toks =>
        simp at h
        exact ⟨toks, rfl, h.2.symm⟩
      | failure d =>
        simp at h

theorem getAccessToken_writes_char (g : Fs) (cid : String) (n : Nat) (r : RefreshOutcome) :
    (getAccessToken g cid n r).writes = []
    ∨ ∃ toks nc, r = .success toks
        ∧ (getAccessToken g cid n r).writes = [(resolveCachePath g, nc)]
        ∧ (getAccessToken g cid n r).result = .ok toks.access_token := by
  cases hg : g (resolveCachePath g) with
  | none => left; simp [getAccessToken, hg]
  | some fc =>
    cases fc with
    | corrupt => left; simp [getAccessToken, hg]
    | valid c =>
      cases hA : c.Account with
      | nil => left; simp [getAccessToken, hg, hA]
      | cons kv rest =>
        obtain ⟨k1, acct⟩ := kv
        cases hs : acquireTokenSilent c acct cid CLI_SCOPES n r with
        | cacheHit s => left; simp [getAccessToken, hg, hA, hs]
        | refreshUnavailable => left; simp [getAccessToken, hg, hA, hs]
        | refreshFailed d => left; simp [getAccessToken, hg, hA, hs]
        | refreshed nc s =>
          right
          obtain ⟨toks, hr, hsec⟩ := acquireTokenSilent_refreshed_inv c acct cid CLI_SCOPES n r nc s hs
          refine ⟨toks, nc, hr, ?_, ?_⟩ <;> simp [getAccessToken, hg, hA, hs, hsec]

/-- C2: for every store containing a non-expired access token matching the
account, scope set and client id, getAccessToken returns that token's
secret with zero network calls and no store write; and across all runs, a
successful refresh is the only path that produces a store write. -/
theorem getAccessToken_cacheHit_readonly
    (fs : Fs) (clientId : String) (now : Nat) (refresh : RefreshOutcome)
    (c : Cache) (key : String) (acct : AccountEntry) (e : AccessTokenEntry)
    (hc : fs (resolveCachePath fs) = some (.valid c))
    (hacct : c.Account.head? = some (key, acct))
    (he : findValidToken c acct clientId CLI_SCOPES now = some e) :
    ((getAccessToken fs clientId now refresh).result = .ok e.secret
      ∧ (getAccessToken fs clientId now refresh).networkCalls = 0
      ∧ (getAccessToken fs clientId now refresh).writes = [])
    ∧ ∀ (g : Fs) (cid : String) (n : Nat) (r : RefreshOutcome),
        (getAccessToken g cid n r).writes ≠ [] →
          ∃ toks, r = .success toks
            ∧ (getAccessToken g cid n r).result = .ok toks.access_token := by
  constructor
  · cases hA : c.Account with
    | nil =>
      rw [hA] at hacct
      simp at hacct
    | cons kv rest =>
      obtain ⟨k1, a1⟩ := kv
      rw [hA] at hacct
      simp [List.head?_cons] at hacct
      obtain ⟨hk, ha⟩ := hacct
      subst ha
      refine ⟨?_, ?_, ?_⟩ <;> simp [getAccessToken, hc, hA, acquireTokenSilent, he]
  · intro g cid n r hw
    rcases getAccessToken_writes_char g cid n r with hempty | ⟨toks, nc, hr, hwr, hres⟩
    · exact absurd hempty hw
    · exact ⟨toks, hr, hres⟩

/-- Witness for C2 at a concrete filesystem holding a store with a valid
matching cached token. -/
theorem getAccessToken_cacheHit_readonly_witness :
    (getAccessToken demoFs "cid" 10 (.failure "offline")).result = .ok "AT"
    ∧ (getAccessToken demoFs "cid" 10 (.failure "offline")).networkCalls = 0
    ∧ (getAccessToken demoFs "cid" 10 (.failure "offline")).writes = [] := by
  have h := getAccessToken_cacheHit_readonly demoFs "cid" 10 (.failure "offline")
    demoCache demoAccountKey demoAccount demoATEntry (by decide) (by decide) (by decide)
  exact ⟨h.1.1, h.1.2.1, h.1.2.2⟩

/-- C3 counterexample: when the store exists only at the second (mcporter)
candidate path, the write performed after a successful silent refresh
targets that resolved path, not the primary (first) path — refuting the
claim that every store write goes to the primary path. -/
theorem refresh_write_not_primary_cex :
    (getAccessToken fsAlt "cid" 999999 (.success demoTokens)).writes.map Prod.fst
      = [mcporterPath]
    ∧ ¬ mcporterPath = TOKEN_CACHE_PATHS.headI := by
  constructor
  · decide
  · decide

/-- C3 amended: the explicit save operation writes the whole document to
the primary (first) path; the persistence performed after a successful
silent refresh writes the whole document to the resolved cache path (the
first existing candidate, or the primary when none exists), which need not
be the primary path. -/
theorem store_write_targets :
    (∀ c : Cache, saveCache c = .writeCache TOKEN_CACHE_PATHS.headI c)
    ∧ (∀ (fs : Fs) (cid : String) (now : Nat) (r : RefreshOutcome),
        ∀ w ∈ (getAccessToken fs cid now r).writes, w.1 = resolveCachePath fs) := by
  constructor
  · intro c
    rfl
  · intro fs cid now r w hw
    rcases getAccessToken_writes_char fs cid now r with hempty | ⟨toks, nc, hr, hwr, hres⟩
    · rw [hempty] at hw
      cases hw
    · rw [hwr] at hw
      simp at hw
      rw [hw]

/-- Witness for the amended C3 at the concrete refresh run on the
non-primary store. -/
theorem store_write_targets_witness :
    ((getAccessToken fsAlt "cid" 999999 (.success demoTokens)).writes.getD 0 ("", demoCache)).1
      = resolveCachePath fsAlt := by
  exact store_write_targets.2 fsAlt "cid" 999999 (.success demoTokens)
    ((getAccessToken fsAlt "cid" 999999 (.success demoTokens)).writes.getD 0 ("", demoCache))
    (by decide)

/-- C4 counterexample: a store file that exists but does not parse does not
produce the NoCredentials failure (the existence check passes, and the raw
contents go to cache deserialization instead), refuting the claim that a
corrupt store yields NoCredentials. -/
theorem corrupt_store_not_noCredentials_cex :
    fsCorrupt (resolveCachePath fsCorrupt) = some .corrupt
    ∧ resultIsNoCredentials (getAccessToken fsCorrupt "cid" 0 (.failure "e")) = false := by
  constructor
  · decide
  · decide

/-- C4 amended: an absent store makes getAccessToken fail with the
NoCredentials message instructing the bootstrap flow, and loadCache never
propagates a parse failure (a corrupt store loads as no-store); but an
existing corrupt store makes getAccessToken fail with a deserialization
error rather than NoCredentials. -/
theorem absent_noCredentials_corrupt_degrade :
    (∀ (fs : Fs) (cid : String) (now : Nat) (r : RefreshOutcome),
        fs (resolveCachePath fs) = none →
          (getAccessToken fs cid now r).result
            = .error (.noCredentials "No token cache found. Run: node msal-auth.mjs"))
    ∧ (∀ fs : Fs, fs (resolveCachePath fs) = some .corrupt → loadCache fs = none)
    ∧ (∀ (fs : Fs) (cid : String) (now : Nat) (r : RefreshOutcome),
        fs (resolveCachePath fs) = some .corrupt →
          (getAccessToken fs cid now r).result = .error .deserializeFailed) := by
  refine ⟨?_, ?_, ?_⟩
  · intro fs cid now r h
    simp [getAccessToken, h]
  · intro fs h
    simp [loadCache, h]
  · intro fs cid now r h
    simp [getAccessToken, h]

/-- Witness for the amended C4 at the empty and the corrupt filesystem. -/
theorem absent_noCredentials_corrupt_degrade_witness :
    (getAccessToken emptyFs "cid" 0 (.failure "e")).result
      = .error (.noCredentials "No token cache found. Run: node msal-auth.mjs")
    ∧ loadCache fsCorrupt = none
    ∧ (getAccessToken fsCorrupt "cid" 0 (.failure "e")).result
      = .error .deserializeFailed := by
  refine ⟨absent_noCredentials_corrupt_degrade.1 emptyFs "cid" 0 (.failure "e") (by decide),
         absent_noCredentials_corrupt_degrade.2.1 fsCorrupt (by decide),
         absent_noCredentials_corrupt_degrade.2.2 fsCorrupt "cid" 0 (.failure "e") (by decide)⟩

theorem flow_success_eq (tid cid : String) (secret : Option String) (dc : DeviceCode)
    (responses : Nat → TokenResp) (profile : ProfileOutcome) (now0 : Nat)
    (toks : TokenResult) (tSucc : Nat)
    (htid : isFalsy (some tid) = false) (hcid : isFalsy (some cid) = false)
    (hp : (pollLoop responses dc.interval (now0 + dc.expires_in * 1000) now0 0).1
      = .succeeded toks tSucc) :
    initiateDeviceCodeFlow (some tid) (some cid) secret (some dc) responses profile now0
      = { events := .network (deviceCodeUrl tid)
            :: (pollLoop responses dc.interval (now0 + dc.expires_in * 1000) now0 0).2.map
                 (fun _ => Ev.network (tokenUrl tid))
            ++ .writeCache TOKEN_CACHE_PATH (saveTokenCache tid cid toks (tSucc / 1000))
              :: showUserInfo (saveTokenCache tid cid toks (tSucc / 1000)) profile
          exitCode := 0 } := by
  simp [initiateDeviceCodeFlow, htid, hcid, hp]

/-- C5 counterexample: with tenant id and client id set but the client
secret absent, the device-code flow does not fail fast — the device-code
network request is issued and a successful run exits 0 — refuting the
claim that a missing client secret stops the program before any network
call. -/
theorem missing_secret_no_failfast_cex :
    (initiateDeviceCodeFlow (some "tid") (some "cid") none (some demoDC)
        (fun _ => .success demoTokens) .httpError 0).exitCode = 0
    ∧ Ev.network (deviceCodeUrl "tid")
        ∈ (initiateDeviceCodeFlow (some "tid") (some "cid") none (some demoDC)
            (fun _ => .success demoTokens) .httpError 0).events := by
  have hpoll := pollLoop_success_eq (fun _ => TokenResp.success demoTokens) demoDC.interval
    (0 + demoDC.expires_in * 1000) 0 0 demoTokens (by decide) rfl
  have hflow := flow_success_eq "tid" "cid" none demoDC (fun _ => TokenResp.success demoTokens)
    .httpError 0 demoTokens (0 + pollIntervalMs demoDC.interval) (by decide) (by decide)
    (by rw [hpoll])
  rw [hflow]
  constructor
  · rfl
  · simp

/-- C5 amended: a falsy (missing or empty) tenant id or client id makes the
device-code flow exit 1 before any network event; the client secret is not
among the checked inputs — it is attached to token requests only when
truthy, and its absence does not prevent the run. -/
theorem env_failfast_tenant_client :
    (∀ (tenant clientId secret : Option String) (dcResp : Option DeviceCode)
        (responses : Nat → TokenResp) (profile : ProfileOutcome) (now0 : Nat),
        (isFalsy tenant || isFalsy clientId) = true →
          initiateDeviceCodeFlow tenant clientId secret dcResp responses profile now0
            = { events := [.exitProc 1], exitCode := 1 })
    ∧ (∀ (cid deviceCode : String),
        (tokenRequestBody cid none deviceCode).lookup "client_secret" = none)
    ∧ (∀ (cid s deviceCode : String), isFalsy (some s) = false →
        (tokenRequestBody cid (some s) deviceCode).lookup "client_secret" = some s) := by
  refine ⟨?_, ?_, ?_⟩
  · intro tenant clientId secret dcResp responses profile now0 hcond
    simp [initiateDeviceCodeFlow, hcond]
  · intro cid deviceCode
    rfl
  · intro cid s deviceCode hs
    simp [tokenRequestBody, hs, List.lookup]

/-- Witness for the amended C5: a missing tenant id exits 1 with no network
event, and a truthy client secret is attached to the token request body. -/
theorem env_failfast_tenant_client_witness :
    initiateDeviceCodeFlow none (some "cid") none none
        (fun _ => TokenResp.success demoTokens) .httpError 0
      = { events := [.exitProc 1], exitCode := 1 }
    ∧ (tokenRequestBody "cid" (some "sec") "dc").lookup "client_secret" = some "sec" := by
  refine ⟨env_failfast_tenant_client.1 none (some "cid") none none
      (fun _ => TokenResp.success demoTokens) .httpError 0 (by decide),
    env_failfast_tenant_client.2.2 "cid" "sec" "dc" (by decide)⟩

/-- C6 counterexample: with a 1000 ms expiry window and a 5 second poll
interval, the only token request is fetched at wall-clock 5000 ms — after
the deadline — yet the loop returns success with exit code 0, not the
Expired exit, refuting the claim that exceeding issuance plus expires_in
always yields Expired and a non-zero exit. -/
theorem poll_success_after_deadline_cex :
    pollLoop (fun _ => TokenResp.success demoTokens) (some 5) 1000 0 0
      = (.succeeded demoTokens 5000, [5000])
    ∧ 1000 < 5000
    ∧ outcomeExitCode (.succeeded demoTokens 5000) = 0 := by
  refine ⟨?_, by decide, rfl⟩
  rw [pollLoop_success_eq (fun _ => TokenResp.success demoTokens) (some 5) 1000 0 0
    demoTokens (by decide) rfl]
  decide

/-- C6 amended: the poll loop checks the deadline only between polls — it
never starts an iteration once wall-clock has reached issuance plus
expires_in (then it times out, and the timeout exit code is non-zero),
every token request is fetched strictly before the deadline plus one poll
interval, and a stream that never resolves (always authorization_pending
or slow_down) always ends in the timeout exit; a response fetched
in-flight after the deadline is still honored. -/
theorem pollLoop_deadline_bound (responses : Nat → TokenResp) (interval : Option Nat)
    (expiresAt t k : Nat) :
    (expiresAt ≤ t → pollLoop responses interval expiresAt t k = (.timedOut, []))
    ∧ (∀ x ∈ (pollLoop responses interval expiresAt t k).2,
        x < expiresAt + pollIntervalMs interval)
    ∧ ((∀ j, responses j = .authorization_pending ∨ responses j = .slow_down) →
        (pollLoop responses interval expiresAt t k).1 = .timedOut)
    ∧ outcomeExitCode .timedOut = 1 := by
  refine ⟨fun h => pollLoop_not_lt responses interval expiresAt t k (by omega),
    pollLoop_times_ub responses interval expiresAt t k,
    fun h => pollLoop_pending_timedOut responses interval expiresAt h t k,
    rfl⟩

/-- Witness for the amended C6: a loop entered past the deadline times out,
a never-resolving stream times out, and a concrete fetch time respects the
deadline-plus-interval bound. -/
theorem pollLoop_deadline_bound_witness :
    pollLoop (fun _ => TokenResp.authorization_pending) (some 5) 900000 900001 0
      = (.timedOut, [])
    ∧ (pollLoop (fun _ => TokenResp.authorization_pending) (some 5) 20000 0 0).1 = .timedOut
    ∧ 5000 < 1000 + pollIntervalMs (some 5) := by
  refine ⟨(pollLoop_deadline_bound (fun _ => TokenResp.authorization_pending)
      (some 5) 900000 900001 0).1 (by omega),
    (pollLoop_deadline_bound (fun _ => TokenResp.authorization_pending)
      (some 5) 20000 0 0).2.2.1 (fun j => Or.inl rfl),
    ?_⟩
  have hx : (5000 : Nat) ∈ (pollLoop (fun _ => TokenResp.success demoTokens) (some 5) 1000 0 0).2 := by
    rw [pollLoop_success_eq (fun _ => TokenResp.success demoTokens) (some 5) 1000 0 0
      demoTokens (by decide) rfl]
    decide
  exact (pollLoop_deadline_bound (fun _ => TokenResp.success demoTokens) (some 5) 1000 0 0).2.1
    5000 hx

/-- C7: on a slow_down response the loop remains polling — the outcome and
remaining fetches are those of the continued loop — and the next token
request comes at least 5000 ms after the current one, strictly more than
the normal poll-interval wait. -/
theorem pollLoop_slow_down_wait (responses : Nat → TokenResp) (interval : Option Nat)
    (expiresAt t k : Nat) (hlt : t < expiresAt) (hr : responses k = .slow_down) :
    pollLoop responses interval expiresAt t k
      = ((pollLoop responses interval expiresAt (t + pollIntervalMs interval + 5000) (k + 1)).1,
         (t + pollIntervalMs interval)
           :: (pollLoop responses interval expiresAt (t + pollIntervalMs interval + 5000) (k + 1)).2)
    ∧ ∀ x ∈ (pollLoop responses interval expiresAt (t + pollIntervalMs interval + 5000) (k + 1)).2,
        t + pollIntervalMs interval + 5000 ≤ x
        ∧ t + pollIntervalMs interval + pollIntervalMs interval < x := by
  refine ⟨pollLoop_slowDown_eq responses interval expiresAt t k hlt hr, ?_⟩
  intro x hx
  have h1 := pollLoop_times_lb responses interval expiresAt
    (t + pollIntervalMs interval + 5000) (k + 1) x hx
  have h2 := pollIntervalMs_pos interval
  omega

/-- Witness for C7: a slow_down answered to the first poll delays the
second token request to 15000 ms, at least 5000 ms after the first fetch
at 5000 ms and later than the 10000 ms a plain interval wait would give. -/
theorem pollLoop_slow_down_wait_witness :
    0 + pollIntervalMs (some 5) + 5000 ≤ 15000
    ∧ 0 + pollIntervalMs (some 5) + pollIntervalMs (some 5) < 15000 := by
  have h := pollLoop_slow_down_wait demoSlowResponses (some 5) 20000 0 0 (by decide) (by decide)
  have hx : (15000 : Nat)
      ∈ (pollLoop demoSlowResponses (some 5) 20000 (0 + pollIntervalMs (some 5) + 5000) 1).2 := by
    rw [pollLoop_success_eq demoSlowResponses (some 5) 20000
      (0 + pollIntervalMs (some 5) + 5000) 1 demoTokens (by decide) (by decide)]
    decide
  exact h.2 15000 hx

theorem serializeCache_wellFormed (c : Cache) : wellFormedDoc (serializeCache c) = true := rfl

theorem saveTokenCache_AccessToken_eq (tid cid : String) (toks : TokenResult) (now : Nat) :
    ∀ e ∈ (saveTokenCache tid cid toks now).AccessToken,
      e.2.cached_at = now ∧ e.2.expires_on = now + toks.expires_in := by
  intro e he
  cases hr : toks.refresh_token <;> cases hi : toks.id_token <;>
    simp [saveTokenCache, hr, hi] at he <;> subst he <;> exact ⟨rfl, rfl⟩

theorem showUserInfo_write_inv (c : Cache) (profile : ProfileOutcome) :
    ∀ p c2, Ev.writeCache p c2 ∈ showUserInfo c profile → c2.AccessToken = c.AccessToken := by
  intro p c2 h
  cases profile with
  | networkFailure => simp [showUserInfo] at h
  | httpError => simp [showUserInfo] at h
  | ok user =>
    cases hA : c.Account with
    | nil => simp [showUserInfo, hA] at h
    | cons kv rest =>
      obtain ⟨k1, a1⟩ := kv
      simp [showUserInfo, hA] at h
      rw [h.2]

theorem flow_write_inv (tenant clientId secret : Option String) (dcResp : Option DeviceCode)
    (responses : Nat → TokenResp) (profile : ProfileOutcome) (now0 : Nat) :
    ∀ p c, Ev.writeCache p c
        ∈ (initiateDeviceCodeFlow tenant clientId secret dcResp responses profile now0).events →
      ∃ tid cid toks now, c.AccessToken = (saveTokenCache tid cid toks now).AccessToken := by
  intro p c hmem
  cases hb : (isFalsy tenant || isFalsy clientId) with
  | true => simp [initiateDeviceCodeFlow, hb] at hmem
  | false =>
    cases dcResp with
    | none => simp [initiateDeviceCodeFlow, hb] at hmem
    | some dc =>
      cases hp : (pollLoop responses dc.interval (now0 + dc.expires_in * 1000) now0 0).1 with
      | expiredTokenExit => simp [initiateDeviceCodeFlow, hb, hp] at hmem
      | failedExit d => simp [initiateDeviceCodeFlow, hb, hp] at hmem
      | timedOut => simp [initiateDeviceCodeFlow, hb, hp] at hmem
      | succeeded toks tSucc =>
        simp [initiateDeviceCodeFlow, hb, hp] at hmem
        rcases hmem with ⟨hpath, hc⟩ | hshow
        · exact ⟨tenant.getD "", clientId.getD "", toks, tSucc / 1000, by rw [hc]⟩
        · have hAT := showUserInfo_write_inv
            (saveTokenCache (tenant.getD "") (clientId.getD "") toks (tSucc / 1000)) profile
            p c hshow
          exact ⟨tenant.getD "", clientId.getD "", toks, tSucc / 1000, hAT⟩

/-- C8: every store document written by the device-code authenticator is
well-formed — its serialization carries all five top-level maps — and every
AccessToken entry of a written store satisfies cached_at less than or equal
to expires_on; moreover in a freshly built store expires_on is exactly
cached_at plus the provider's expires_in. -/
theorem authenticator_writes_wellFormed
    (tenant clientId secret : Option String) (dcResp : Option DeviceCode)
    (responses : Nat → TokenResp) (profile : ProfileOutcome) (now0 : Nat) :
    (∀ p c, Ev.writeCache p c
        ∈ (initiateDeviceCodeFlow tenant clientId secret dcResp responses profile now0).events →
      wellFormedDoc (serializeCache c) = true
        ∧ ∀ e ∈ c.AccessToken, e.2.cached_at ≤ e.2.expires_on)
    ∧ (∀ (tid cid : String) (toks : TokenResult) (now : Nat),
        ∀ e ∈ (saveTokenCache tid cid toks now).AccessToken,
          e.2.expires_on = e.2.cached_at + toks.expires_in) := by
  constructor
  · intro p c hmem
    refine ⟨serializeCache_wellFormed c, ?_⟩
    obtain ⟨tid, cid, toks, now, hAT⟩ :=
      flow_write_inv tenant clientId secret dcResp responses profile now0 p c hmem
    intro e he
    rw [hAT] at he
    have h := saveTokenCache_AccessToken_eq tid cid toks now e he
    omega
  · intro tid cid toks now e he
    have h := saveTokenCache_AccessToken_eq tid cid toks now e he
    omega

/-- Witness for C8: the store written by a concrete successful device flow
serializes with all five maps present. -/
theorem authenticator_writes_wellFormed_witness :
    wellFormedDoc (serializeCache
      (saveTokenCache "tid" "cid" demoTokens ((0 + pollIntervalMs demoDC.interval) / 1000)))
      = true := by
  have hpoll := pollLoop_success_eq (fun _ => TokenResp.success demoTokens) demoDC.interval
    (0 + demoDC.expires_in * 1000) 0 0 demoTokens (by decide) rfl
  have hflow := flow_success_eq "tid" "cid" none demoDC (fun _ => TokenResp.success demoTokens)
    .httpError 0 demoTokens (0 + pollIntervalMs demoDC.interval) (by decide) (by decide)
    (by rw [hpoll])
  have hmem : Ev.writeCache TOKEN_CACHE_PATH
      (saveTokenCache "tid" "cid" demoTokens ((0 + pollIntervalMs demoDC.interval) / 1000))
      ∈ (initiateDeviceCodeFlow (some "tid") (some "cid") none (some demoDC)
          (fun _ => TokenResp.success demoTokens) .httpError 0).events := by
    rw [hflow, hpoll]
    decide
  exact ((authenticator_writes_wellFormed (some "tid") (some "cid") none (some demoDC)
    (fun _ => TokenResp.success demoTokens) .httpError 0).1 TOKEN_CACHE_PATH
    (saveTokenCache "tid" "cid" demoTokens ((0 + pollIntervalMs demoDC.interval) / 1000))
    hmem).1

/-- C9: when the poll loop succeeds, the flow exits 0 for every outcome of
the best-effort profile lookup, and its event trace is exactly the
device-code request and polls, then the whole-document write of the store
built from the token response, then the events of the profile enrichment —
so the store is persisted before the enrichment runs and no enrichment
outcome fails the flow. -/
theorem device_flow_success_persists_then_enriches
    (tid cid : String) (secret : Option String) (dc : DeviceCode)
    (responses : Nat → TokenResp) (now0 : Nat) (toks : TokenResult) (tSucc : Nat)
    (htid : isFalsy (some tid) = false) (hcid : isFalsy (some cid) = false)
    (hp : (pollLoop responses dc.interval (now0 + dc.expires_in * 1000) now0 0).1
      = .succeeded toks tSucc) :
    ∀ profile : ProfileOutcome,
      (initiateDeviceCodeFlow (some tid) (some cid) secret (some dc)
          responses profile now0).exitCode = 0
      ∧ (initiateDeviceCodeFlow (some tid) (some cid) secret (some dc)
            responses profile now0).events
        = (Ev.network (deviceCodeUrl tid)
            :: (pollLoop responses dc.interval (now0 + dc.expires_in * 1000) now0 0).2.map
                 (fun _ => Ev.network (tokenUrl tid)))
          ++ Ev.writeCache TOKEN_CACHE_PATH (saveTokenCache tid cid toks (tSucc / 1000))
            :: showUserInfo (saveTokenCache tid cid toks (tSucc / 1000)) profile := by
  intro profile
  rw [flow_success_eq tid cid secret dc responses profile now0 toks tSucc htid hcid hp]
  exact ⟨rfl, by simp⟩

/-- Witness for C9 at a concrete successful flow whose profile lookup
throws. -/
theorem device_flow_success_persists_then_enriches_witness :
    (initiateDeviceCodeFlow (some "tid") (some "cid") none (some demoDC)
        (fun _ => TokenResp.success demoTokens) .networkFailure 0).exitCode = 0 := by
  have hpoll := pollLoop_success_eq (fun _ => TokenResp.success demoTokens) demoDC.interval
    (0 + demoDC.expires_in * 1000) 0 0 demoTokens (by decide) rfl
  exact (device_flow_success_persists_then_enriches "tid" "cid" none demoDC
    (fun _ => TokenResp.success demoTokens) 0 demoTokens (0 + pollIntervalMs demoDC.interval)
    (by decide) (by decide) (by rw [hpoll]) .networkFailure).1

/-- C10: the store built by saveTokenCache has a RefreshToken entry exactly
when the token response carries refresh_token (and an IdToken entry exactly
when it carries id_token), the entry holds the response's secret; a
response without refresh_token leaves the RefreshToken map empty, so once
the access token has expired silent acquisition on that store can only
report RefreshUnavailable; and such a response still completes the device
flow with exit 0. -/
theorem saveTokenCache_optional_sections (tid cid : String) (toks : TokenResult) (now : Nat) :
    ((saveTokenCache tid cid toks now).RefreshToken = [] ↔ toks.refresh_token = none)
    ∧ ((saveTokenCache tid cid toks now).IdToken = [] ↔ toks.id_token = none)
    ∧ (∀ rt, toks.refresh_token = some rt →
        ∃ k e, (saveTokenCache tid cid toks now).RefreshToken = [(k, e)] ∧ e.secret = rt)
    ∧ (∀ it, toks.id_token = some it →
        ∃ k e, (saveTokenCache tid cid toks now).IdToken = [(k, e)] ∧ e.secret = it)
    ∧ (toks.refresh_token = none →
        ∀ (acct : AccountEntry) (scopes : List String) (now2 : Nat) (r : RefreshOutcome),
          now + toks.expires_in ≤ now2 →
            acquireTokenSilent (saveTokenCache tid cid toks now) acct cid scopes now2 r
              = .refreshUnavailable)
    ∧ (∀ (dc : DeviceCode) (profile : ProfileOutcome) (now0 : Nat),
        0 < dc.expires_in → isFalsy (some tid) = false → isFalsy (some cid) = false →
          (initiateDeviceCodeFlow (some tid) (some cid) none (some dc)
              (fun _ => .success toks) profile now0).exitCode = 0) := by
  refine ⟨?_, ?_, ?_, ?_, ?_, ?_⟩
  · cases hr : toks.refresh_token <;> cases hi : toks.id_token <;>
      simp [saveTokenCache, hr, hi]
  · cases hr : toks.refresh_token <;> cases hi : toks.id_token <;>
      simp [saveTokenCache, hr, hi]
  · intro rt hrt
    cases hi : toks.id_token <;> simp [saveTokenCache, hrt, hi] <;>
      exact ⟨_, _, ⟨rfl, rfl⟩, rfl⟩
  · intro it hit
    cases hr : toks.refresh_token <;> simp [saveTokenCache, hr, hit] <;>
      exact ⟨_, _, ⟨rfl, rfl⟩, rfl⟩
  · intro h0 acct scopes now2 r hexp
    unfold acquireTokenSilent
    have hv : findValidToken (saveTokenCache tid cid toks now) acct cid scopes now2 = none := by
      unfold findValidToken
      rw [List.filter_eq_nil_iff.mpr ?_]
      · rfl
      · intro e he
        rw [List.mem_map] at he
        obtain ⟨kv, hkv, hkve⟩ := he
        have h := saveTokenCache_AccessToken_eq tid cid toks now kv hkv
        simp only [Bool.and_eq_true, decide_eq_true_eq, not_and]
        intro hmatch
        rw [← hkve]
        omega
    rw [hv]
    have hrf : findRefreshToken (saveTokenCache tid cid toks now) acct cid = none := by
      have hempty : (saveTokenCache tid cid toks now).RefreshToken = [] := by
        cases hi : toks.id_token <;> simp [saveTokenCache, h0, hi]
      unfold findRefreshToken
      rw [hempty]
      rfl
    rw [hrf]
  · intro dc profile now0 hdc htid2 hcid2
    have hlt : now0 < now0 + dc.expires_in * 1000 := by
      have : 0 < dc.expires_in * 1000 := by omega
      omega
    have hp := pollLoop_success_eq (fun _ => TokenResp.success toks) dc.interval
      (now0 + dc.expires_in * 1000) now0 0 toks hlt rfl
    rw [flow_success_eq tid cid none dc (fun _ => TokenResp.success toks) profile now0 toks
      (now0 + pollIntervalMs dc.interval) htid2 hcid2 (by rw [hp])]

/-- Witness for C10: a token response without refresh_token writes an empty
RefreshToken map, silent acquisition on the expired store reports
RefreshUnavailable, and the flow still exits 0. -/
theorem saveTokenCache_optional_sections_witness :
    (saveTokenCache "tid" "cid" demoTokensNoRt 0).RefreshToken = []
    ∧ acquireTokenSilent (saveTokenCache "tid" "cid" demoTokensNoRt 0) demoAccount "cid"
        CLI_SCOPES 99999 (.failure "x") = .refreshUnavailable
    ∧ (initiateDeviceCodeFlow (some "tid") (some "cid") none (some demoDC)
        (fun _ => .success demoTokensNoRt) .httpError 0).exitCode = 0 := by
  have h := saveTokenCache_optional_sections "tid" "cid" demoTokensNoRt 0
  exact ⟨h.1.mpr rfl,
    h.2.2.2.2.1 rfl demoAccount CLI_SCOPES 99999 (.failure "x") (by decide),
    h.2.2.2.2.2 demoDC .httpError 0 (by decide) (by decide) (by decide)⟩

end M365
